import Mathlib

/-!
# EcoTrack gamification ledger — formal model

Shallow embedding of the gamification core of the EcoTrack backend:
the pure scoring and impact functions (`activities/utils.py`), the
activity accrual/reversal routes (`activities/routes.py`), the challenge
participation state machine (`challenges/routes.py`), and the leaderboard
projection (`community/routes.py`), together with the pydantic request
validators that guard them (`activities/schemas.py`,
`challenges/schemas.py`).

Numbers carried by requests are JSON numbers; they are modelled as `ℚ`
(exact rationals standing for Python ints/floats).  Database identities
are `ℤ`.  Times (`datetime`) are modelled as `ℤ` timestamps.  Fallible
endpoints return `Except ApiError`.
-/

namespace EcoTrack

/-- Error kinds raised by the routes, labelled by the taxonomy of the spec.
`validationError` models a pydantic validator raising `ValueError`;
the remaining constructors model the distinct `HTTPException` values raised
in the route bodies (each identified by its `detail` string in the source). -/
inductive ApiError where
  /-- pydantic validation failure (HTTP 422), with the validator's message -/
  | validationError (msg : String)
  /-- HTTP 404 "... not found" -/
  | notFoundError
  /-- HTTP 400 "Already joined this challenge" -/
  | conflictError
  /-- HTTP 400 "Challenge is not active" -/
  | inactiveChallengeError
  /-- HTTP 400 "Not joined to this challenge" -/
  | notJoinedError
  deriving Repr, DecidableEq

/-- The `impact_data` JSON object attached to an activity
(`Dict[str, Any]` in `ActivityCreate`): each key the code reads is an
optional field, `none` meaning the key is absent. -/
structure ImpactData where
  bags_collected : Option ℚ := none
  trees_planted : Option ℚ := none
  distance_km : Option ℚ := none
  transport_type : Option String := none
  water_saved_liters : Option ℚ := none
  energy_saved_kwh : Option ℚ := none
  deriving Repr, DecidableEq

/-- The empty JSON object `{}` (every key absent). -/
def ImpactData.empty : ImpactData := {}

/-- The dictionary `activity_data.dict()` passed to `calculate_points`
and `update_user_impact_stats`: the payload of `ActivityCreate`.
`impact_data = none` models the `impact_data` key being absent
(`'impact_data' in activity_data` false); data that went through the
schema always has the key (default `{}` = `some ImpactData.empty`). -/
structure ActivityData where
  type : String
  title : String := ""
  description : String := ""
  location : Option String := none
  region : Option String := none
  photos : List String := []
  impact_data : Option ImpactData := some ImpactData.empty
  deriving Repr, DecidableEq

/-- Python truthiness of an optional string (`None` and `""` are falsy). -/
def truthyStr : Option String → Bool
  | none => false
  | some s => s ≠ ""

/-- Python truthiness of a list (`[]` is falsy, `None` absent key too). -/
def truthyList : List String → Bool
  | [] => false
  | _ :: _ => true

/-- Python `int(q)`: truncation toward zero. -/
def pyInt (q : ℚ) : ℤ := if 0 ≤ q then ⌊q⌋ else ⌈q⌉

/-- The `base_points` dictionary in `calculate_points`. -/
def base_points (t : String) : Option ℚ :=
  if t = "trash" then some 25
  else if t = "trees" then some 50
  else if t = "mobility" then some 15
  else if t = "water" then some 20
  else if t = "energy" then some 30
  else none

/-- `calculate_points(activity_type, activity_data)` from
`activities/utils.py`: base by category with fallback 10
(`base_points.get(activity_type, 10)`), +5 for photos, +3 for location,
category-specific bonuses read from `impact_data`, result capped by
`min(points, 200)`. -/
def calculate_points (activity_type : String) (activity_data : ActivityData) : ℚ :=
  let points : ℚ := (base_points activity_type).getD 10
  let points : ℚ := if truthyList activity_data.photos then points + 5 else points
  let points : ℚ := if truthyStr activity_data.location then points + 3 else points
  let points : ℚ :=
    if activity_type = "trash" then
      match activity_data.impact_data with
      | some d =>
          let bags := d.bags_collected.getD 0
          if bags > 0 then points + min (bags * 5) 25 else points
      | none => points
    else if activity_type = "trees" then
      match activity_data.impact_data with
      | some d =>
          let trees := d.trees_planted.getD 1
          if trees > 1 then points + (trees - 1) * 20 else points
      | none => points
    else if activity_type = "mobility" then
      match activity_data.impact_data with
      | some d =>
          let distance := d.distance_km.getD 0
          if distance > 0 then points + min ((pyInt distance : ℤ) : ℚ) 15 else points
      | none => points
    else points
  min points 200

/-- A row of the `users` table (the ledger-owned columns). -/
structure User where
  id : ℤ
  region : Option String := none
  total_points : ℚ := 0
  weekly_points : ℚ := 0
  rank : ℤ := 0
  is_active : Bool := true
  trash_collected : ℚ := 0
  trees_planted : ℚ := 0
  co2_saved : ℚ := 0
  deriving Repr, DecidableEq

/-- The `emission_factors` dictionary lookup
`emission_factors.get(transport_type, 0.05)` in
`update_user_impact_stats` (kg CO2 per km). -/
def emission_factors (transport_type : String) : ℚ :=
  if transport_type = "walking" then 0
  else if transport_type = "cycling" then 0
  else if transport_type = "public_transport" then 1/20
  else if transport_type = "car_pooling" then 1/10
  else 1/20

/-- `update_user_impact_stats(user, activity_type, activity_data)` from
`activities/utils.py`: mutates the impact aggregates of the user in place;
modelled as returning the updated user.  Note the defaults differ from
`calculate_points` (`bags_collected` defaults to 1 here, 0 there;
`distance_km` to 5 here, 0 there; `transport_type` to `'walking'`). -/
def update_user_impact_stats (user : User) (activity_type : String)
    (activity_data : ActivityData) : User :=
  if activity_type = "trash" then
    let bags := ((activity_data.impact_data.getD ImpactData.empty).bags_collected).getD 1
    { user with
      trash_collected := user.trash_collected + bags * 2
      co2_saved := user.co2_saved + bags * (1/2) }
  else if activity_type = "trees" then
    let trees := ((activity_data.impact_data.getD ImpactData.empty).trees_planted).getD 1
    { user with
      trees_planted := user.trees_planted + trees
      co2_saved := user.co2_saved + trees * (2177/100) }
  else if activity_type = "mobility" then
    let distance := ((activity_data.impact_data.getD ImpactData.empty).distance_km).getD 5
    let transport_type :=
      ((activity_data.impact_data.getD ImpactData.empty).transport_type).getD "walking"
    let saved_emissions := distance * (1/5 - emission_factors transport_type)
    { user with co2_saved := user.co2_saved + max saved_emissions 0 }
  else if activity_type = "water" then
    let liters_saved :=
      ((activity_data.impact_data.getD ImpactData.empty).water_saved_liters).getD 50
    { user with co2_saved := user.co2_saved + liters_saved * (3/10000) }
  else if activity_type = "energy" then
    let kwh_saved :=
      ((activity_data.impact_data.getD ImpactData.empty).energy_saved_kwh).getD 5
    { user with co2_saved := user.co2_saved + kwh_saved * (45/100) }
  else user

/-- Python truthiness of an optional `impact_data` dict: `None` and the
empty dict `{}` are falsy (`json.dumps(...) if activity_data.impact_data
else None`). -/
def truthyImpact : Option ImpactData → Bool
  | none => false
  | some d => d ≠ ImpactData.empty

/-- A row of the `activities` table. -/
structure Activity where
  id : ℤ
  user_id : ℤ
  type : String
  title : String := ""
  description : String := ""
  points : ℚ
  location : Option String := none
  region : Option String := none
  /-- `photos` Text column: `none` models SQL NULL, `some l` the JSON dump of `l` -/
  photos : Option (List String) := none
  verified : Bool := false
  /-- `impact_data` Text column: `none` models SQL NULL -/
  impact_data : Option ImpactData := none
  deriving Repr, DecidableEq

/-- The per-user slice of the store the activity routes touch: the
`current_user` row, the `activities` table, and the autoincrement counter
for activity primary keys. -/
structure LedgerState where
  user : User
  activities : List Activity := []
  next_id : ℤ := 1
  deriving Repr, DecidableEq

/-- The `Activity(...)` row constructed in `create_activity`
(`activities/routes.py`): photos and impact_data stored as JSON or NULL
depending on truthiness, `points` from `calculate_points`. -/
def new_activity (uid nid : ℤ) (activity_data : ActivityData) : Activity :=
  { id := nid
    user_id := uid
    type := activity_data.type
    title := activity_data.title
    description := activity_data.description
    points := calculate_points activity_data.type activity_data
    location := activity_data.location
    region := activity_data.region
    photos := if truthyList activity_data.photos then some activity_data.photos else none
    impact_data := if truthyImpact activity_data.impact_data then activity_data.impact_data
      else none }

/-- `create_activity` route (`activities/routes.py`): inserts the new
activity row, then adds `points` to `total_points` and `weekly_points`
and applies `update_user_impact_stats`, all on the current user row. -/
def create_activity (st : LedgerState) (activity_data : ActivityData) : LedgerState :=
  let points := calculate_points activity_data.type activity_data
  let db_activity := new_activity st.user.id st.next_id activity_data
  let user := st.user
  let user := { user with
    total_points := user.total_points + points
    weekly_points := user.weekly_points + points }
  let user := update_user_impact_stats user activity_data.type activity_data
  { user := user
    activities := st.activities ++ [db_activity]
    next_id := st.next_id + 1 }

/-- The ownership query
`db.query(Activity).filter(Activity.id == activity_id, Activity.user_id == current_user.id).first()`
shared by the update and delete routes. -/
def owned_activity (st : LedgerState) (activity_id : ℤ) : Option Activity :=
  st.activities.find? fun a => a.id == activity_id && a.user_id == st.user.id

/-- `delete_activity` route (`activities/routes.py`): 404 when the row is
absent or not owned; otherwise subtracts the stored `activity.points`
from `total_points` and `weekly_points` (no clamping, and the impact
aggregates are not touched) and deletes the row. -/
def delete_activity (st : LedgerState) (activity_id : ℤ) : Except ApiError LedgerState :=
  match owned_activity st activity_id with
  | none => .error .notFoundError
  | some activity =>
      .ok { st with
        user := { st.user with
          total_points := st.user.total_points - activity.points
          weekly_points := st.user.weekly_points - activity.points }
        activities :=
          st.activities.eraseP fun a => a.id == activity_id && a.user_id == st.user.id }

/-- The `ActivityUpdate` payload with `dict(exclude_unset=True)` semantics:
an outer `none` means the field was not supplied and is left untouched.
For the nullable columns the supplied value may itself be null
(`setattr(activity, field, None)`). -/
structure ActivityUpdate where
  title : Option String := none
  description : Option String := none
  location : Option (Option String) := none
  region : Option (Option String) := none
  photos : Option (Option (List String)) := none
  impact_data : Option (Option ImpactData) := none
  deriving Repr, DecidableEq

/-- The `for field, value in update_data.items(): setattr(activity, field, value)`
loop of the `update_activity` route: each supplied field overwrites the
column (photos and impact_data JSON-dumped when not null).  The six
fields are distinct columns, so the loop is the simultaneous update. -/
def apply_activity_update (a : Activity) (upd : ActivityUpdate) : Activity :=
  { a with
    title := upd.title.getD a.title
    description := upd.description.getD a.description
    location := upd.location.getD a.location
    region := upd.region.getD a.region
    photos := upd.photos.getD a.photos
    impact_data := upd.impact_data.getD a.impact_data }

/-- `update_activity` route (`activities/routes.py`): 404 when the row is
absent or not owned; otherwise applies the supplied fields to that row
(the row is identified by its primary key, so the conditional map touches
exactly the queried row).  The user row is never touched. -/
def update_activity (st : LedgerState) (activity_id : ℤ) (upd : ActivityUpdate) :
    Except ApiError LedgerState :=
  match owned_activity st activity_id with
  | none => .error .notFoundError
  | some _ =>
      .ok { st with
        activities := st.activities.map fun a =>
          if a.id == activity_id && a.user_id == st.user.id then
            apply_activity_update a upd
          else a }

/-- `allowed_types` in `ActivityCreate.validate_type` (`activities/schemas.py`). -/
def allowed_types : List String := ["trash", "trees", "mobility", "water", "energy"]

/-- `ActivityCreate.validate_type`: rejects categories outside
`allowed_types` with a `ValueError` (surfacing as a pydantic
ValidationError). -/
def validate_type (v : String) : Except ApiError String :=
  if v ∈ allowed_types then .ok v
  else .error (.validationError "Activity type must be one of: trash, trees, mobility, water, energy")

/-- `ActivityCreate.validate_title`: strips and bounds the length. -/
def validate_title (v : String) : Except ApiError String :=
  if v.trim.length < 3 then .error (.validationError "Title must be at least 3 characters long")
  else if v.trim.length > 100 then
    .error (.validationError "Title must be less than 100 characters")
  else .ok v.trim

/-- `ActivityCreate.validate_description`: strips and bounds the length. -/
def validate_description (v : String) : Except ApiError String :=
  if v.trim.length < 10 then
    .error (.validationError "Description must be at least 10 characters long")
  else if v.trim.length > 500 then
    .error (.validationError "Description must be less than 500 characters")
  else .ok v.trim

/-- The pydantic validation of an `ActivityCreate` payload (validators run
in field declaration order: type, then title, then description). -/
def ActivityCreate_validate (d : ActivityData) : Except ApiError ActivityData := do
  let t ← validate_type d.type
  let ti ← validate_title d.title
  let de ← validate_description d.description
  .ok { d with type := t, title := ti, description := de }

/-- The full `POST /activities/` pipeline: pydantic validation of the
payload, then the `create_activity` route body. -/
def create_activity_endpoint (st : LedgerState) (d : ActivityData) :
    Except ApiError LedgerState := do
  let d ← ActivityCreate_validate d
  .ok (create_activity st d)

/-- A row of the `challenges` table.  `points` is the completion reward.
Dates (`datetime` columns) are modelled as integer timestamps. -/
structure Challenge where
  id : ℤ
  title : String := ""
  description : String := ""
  category : String := ""
  duration : String := ""
  points : ℚ
  difficulty : String := ""
  is_active : Bool := true
  start_date : Option ℤ := none
  end_date : Option ℤ := none
  deriving Repr, DecidableEq

/-- A row of the `challenge_participants` association table
(`database.py`): primary key (user_id, challenge_id), with column
defaults `progress = 0.0` and `completed = False`. -/
structure Participation where
  user_id : ℤ
  challenge_id : ℤ
  joined_at : ℤ := 0
  progress : ℚ := 0
  completed : Bool := false
  deriving Repr, DecidableEq

/-- The slice of the store the challenge routes touch: the current user
row, the `challenges` table and the `challenge_participants` table. -/
structure ChallengeState where
  user : User
  challenges : List Challenge := []
  participations : List Participation := []
  deriving Repr, DecidableEq

/-- The participation query
`db.query(challenge_participants).filter(user_id == current_user.id, challenge_id == challenge_id).first()`
shared by the join, leave and progress routes. -/
def find_participation (st : ChallengeState) (challenge_id : ℤ) : Option Participation :=
  st.participations.find? fun p =>
    p.user_id == st.user.id && p.challenge_id == challenge_id

/-- `join_challenge` route (`challenges/routes.py`): 404 when the
challenge row is absent; 400 "Challenge is not active" when
`is_active` is false (the start/end dates are never consulted); 400
"Already joined this challenge" when a participation row already exists;
otherwise inserts the participation row with `joined_at = now`
(`datetime.utcnow()`) and the column defaults `progress = 0`,
`completed = false`. -/
def join_challenge (st : ChallengeState) (challenge_id : ℤ) (now : ℤ) :
    Except ApiError ChallengeState :=
  match st.challenges.find? (fun c => c.id == challenge_id) with
  | none => .error .notFoundError
  | some challenge =>
      if !challenge.is_active then .error .inactiveChallengeError
      else
        match find_participation st challenge_id with
        | some _ => .error .conflictError
        | none =>
            .ok { st with
              participations := st.participations ++
                [{ user_id := st.user.id, challenge_id := challenge_id, joined_at := now }] }

/-- `leave_challenge` route (`challenges/routes.py`): 400 "Not joined to
this challenge" when no participation row exists; otherwise deletes the
rows matching the (user, challenge) pair.  The user aggregates are not
touched (an already credited bonus is not revoked). -/
def leave_challenge (st : ChallengeState) (challenge_id : ℤ) :
    Except ApiError ChallengeState :=
  match find_participation st challenge_id with
  | none => .error .notJoinedError
  | some _ =>
      .ok { st with
        participations := st.participations.filter fun p =>
          !(p.user_id == st.user.id && p.challenge_id == challenge_id) }

/-- The row update applied by the progress route to the matching
`challenge_participants` rows:
`values(progress=min(progress_data.progress, 100.0), completed=progress_data.progress >= 100.0)`.
There is no lower clamp on `progress`. -/
def progress_patch (uid challenge_id : ℤ) (progress : ℚ) (p : Participation) : Participation :=
  if p.user_id == uid && p.challenge_id == challenge_id then
    { p with progress := min progress 100, completed := decide (progress ≥ 100) }
  else p

/-- `update_challenge_progress` route body (`challenges/routes.py`),
after pydantic validation: 400 when not joined; otherwise the SQL update
sets `progress = min(progress_data.progress, 100.0)` (no lower clamp)
and `completed = (progress_data.progress >= 100.0)` on the matching
rows; then, whenever the raw value is `>= 100.0` and the challenge row
exists, adds `challenge.points` to `total_points` and `weekly_points` —
unconditionally, with no `bonus_credited`-style guard, regardless of the
previous `completed` value. -/
def update_challenge_progress (st : ChallengeState) (challenge_id : ℤ) (progress : ℚ) :
    Except ApiError ChallengeState :=
  match find_participation st challenge_id with
  | none => .error .notJoinedError
  | some _ =>
      let participations :=
        st.participations.map (progress_patch st.user.id challenge_id progress)
      let st1 := { st with participations := participations }
      if progress ≥ 100 then
        match st1.challenges.find? (fun c => c.id == challenge_id) with
        | some challenge =>
            .ok { st1 with user := { st1.user with
              total_points := st1.user.total_points + challenge.points
              weekly_points := st1.user.weekly_points + challenge.points } }
        | none => .ok st1
      else .ok st1

/-- `ChallengeParticipation.validate_progress` (`challenges/schemas.py`):
rejects progress values below 0 or above 100 with a `ValueError`
(surfacing as a pydantic ValidationError). -/
def validate_progress (v : ℚ) : Except ApiError ℚ :=
  if v < 0 then .error (.validationError "Progress cannot be negative")
  else if v > 100 then .error (.validationError "Progress cannot exceed 100%")
  else .ok v

/-- The full `PUT /challenges/{id}/progress` pipeline: pydantic
validation of the payload, then the route body. -/
def update_progress_endpoint (st : ChallengeState) (challenge_id : ℤ) (v : ℚ) :
    Except ApiError ChallengeState := do
  let progress ← validate_progress v
  update_challenge_progress st challenge_id progress

/-- Region filter of the leaderboard query
(`query.filter(User.region == region)` when a region is supplied). -/
def regionMatch (region : Option String) (u : User) : Bool :=
  match region with
  | none => true
  | some r => u.region == some r

/-- The WHERE clause of `get_leaderboard` (`community/routes.py`):
active users, optionally restricted to a region. -/
def leaderboard_filter (region : Option String) (users : List User) : List User :=
  users.filter fun u => u.is_active && regionMatch region u

/-- The ORDER BY relation of `get_leaderboard`: for `weekly` (and
`monthly`) `ORDER BY weekly_points DESC, total_points DESC`, otherwise
`ORDER BY total_points DESC`.  `lbRel t a b` states that row `a` may
appear before row `b`.  Note no further key — in particular not the user
id and not the persisted `rank` column — constrains the order of ties. -/
def lbRel (timeframe : String) (a b : User) : Prop :=
  if timeframe = "weekly" ∨ timeframe = "monthly" then
    b.weekly_points < a.weekly_points ∨
      (b.weekly_points = a.weekly_points ∧ b.total_points ≤ a.total_points)
  else
    b.total_points ≤ a.total_points

instance (timeframe : String) (a b : User) : Decidable (lbRel timeframe a b) := by
  unfold lbRel
  infer_instance

/-- The contract of the `get_leaderboard` query
(`db.query(User).filter(...).order_by(...).limit(limit).all()`): the
returned list is some permutation of the filtered rows that is
consistent with the ORDER BY keys, truncated to `limit`.  The relative
order of rows with equal keys is chosen by the database engine and is
not constrained. -/
def leaderboard_ok (timeframe : String) (region : Option String) (limit : ℕ)
    (users out : List User) : Prop :=
  ∃ sorted_users : List User,
    (leaderboard_filter region users).Perm sorted_users ∧
    sorted_users.Pairwise (lbRel timeframe) ∧
    out = sorted_users.take limit

/-!
## Derived combinators and invariants

Sequencing of the modelled operations and the store invariants
(primary-key uniqueness, autoincrement freshness, foreign keys) used to
state the claims about sequences of calls.
-/

/-- A sequence of `create_activity` calls by the same user. -/
def create_many (st : LedgerState) (ds : List ActivityData) : LedgerState :=
  ds.foldl create_activity st

/-- A sequence of `delete_activity` calls by the same user
(stops at the first error). -/
def delete_many : LedgerState → List ℤ → Except ApiError LedgerState
  | st, [] => .ok st
  | st, i :: ids =>
      match delete_activity st i with
      | .error e => .error e
      | .ok st1 => delete_many st1 ids

/-- The ids handed out by the autoincrement counter to `n` consecutive
inserts starting at `start`. -/
def created_ids (start : ℤ) : ℕ → List ℤ
  | 0 => []
  | n + 1 => start :: created_ids (start + 1) n

/-- The activity rows inserted by `create_many` (user `uid`, first fresh
id `start`). -/
def created_records (uid start : ℤ) : List ActivityData → List Activity
  | [] => []
  | d :: ds => new_activity uid start d :: created_records uid (start + 1) ds

/-- The `points` column of the activity row with id `i` owned by `uid`
(0 when absent) — the amount `delete_activity` subtracts. -/
def points_of (acts : List Activity) (uid i : ℤ) : ℚ :=
  match acts.find? (fun a => a.id == i && a.user_id == uid) with
  | some a => a.points
  | none => 0

/-- `trash_collected` increment applied by `update_user_impact_stats`. -/
def trash_delta (t : String) (d : ActivityData) : ℚ :=
  if t = "trash" then ((d.impact_data.getD ImpactData.empty).bags_collected.getD 1) * 2 else 0

/-- `trees_planted` increment applied by `update_user_impact_stats`. -/
def trees_delta (t : String) (d : ActivityData) : ℚ :=
  if t = "trees" then (d.impact_data.getD ImpactData.empty).trees_planted.getD 1 else 0

/-- `co2_saved` increment applied by `update_user_impact_stats`. -/
def co2_delta (t : String) (d : ActivityData) : ℚ :=
  if t = "trash" then ((d.impact_data.getD ImpactData.empty).bags_collected.getD 1) * (1/2)
  else if t = "trees" then
    ((d.impact_data.getD ImpactData.empty).trees_planted.getD 1) * (2177/100)
  else if t = "mobility" then
    max (((d.impact_data.getD ImpactData.empty).distance_km.getD 5) *
      (1/5 - emission_factors
        (((d.impact_data.getD ImpactData.empty).transport_type).getD "walking"))) 0
  else if t = "water" then
    ((d.impact_data.getD ImpactData.empty).water_saved_liters.getD 50) * (3/10000)
  else if t = "energy" then
    ((d.impact_data.getD ImpactData.empty).energy_saved_kwh.getD 5) * (45/100)
  else 0

/-- Primary-key uniqueness of the `activities` table. -/
def activity_ids_nodup (st : LedgerState) : Prop :=
  (st.activities.map (fun a => a.id)).Nodup

/-- Autoincrement freshness: every stored activity id is below the
counter. -/
def activity_ids_fresh (st : LedgerState) : Prop :=
  ∀ a ∈ st.activities, a.id < st.next_id

/-- Primary-key constraint of `challenge_participants`: at most one row
per (user, challenge) pair. -/
def at_most_one_per_pair (l : List Participation) : Prop :=
  l.Pairwise fun p q => ¬(p.user_id = q.user_id ∧ p.challenge_id = q.challenge_id)

/-- Every challenge row is active.  This holds in every state reachable
through the API: `create_challenge` inserts with the column default
`is_active = True`, the seeds insert `is_active = True`, and no endpoint
ever clears the flag (`ChallengeUpdate` is imported but unused). -/
def all_challenges_active (st : ChallengeState) : Prop :=
  ∀ c ∈ st.challenges, c.is_active = true

/-- Foreign-key constraint: every participation row references an
existing challenge row. -/
def participation_fk (st : ChallengeState) : Prop :=
  ∀ p ∈ st.participations, ∃ c ∈ st.challenges, c.id = p.challenge_id

/-- The `ChallengeCreate` payload (`challenges/schemas.py`): it carries
no `is_active` field, so an inserted challenge always gets the column
default `is_active = True`. -/
structure ChallengeCreateData where
  title : String := ""
  description : String := ""
  category : String := ""
  duration : String := ""
  points : ℚ
  difficulty : String := ""
  start_date : Option ℤ := none
  end_date : Option ℤ := none
  deriving Repr, DecidableEq

/-- `create_challenge` route (`challenges/routes.py`): inserts a new
challenge row from the payload; `is_active` takes the column default
`True`.  No endpoint in the code base ever sets `is_active` to false
(the `ChallengeUpdate` schema is imported but unused). -/
def create_challenge (st : ChallengeState) (d : ChallengeCreateData) (new_id : ℤ) :
    ChallengeState :=
  { st with challenges := st.challenges ++
      [{ id := new_id, title := d.title, description := d.description,
         category := d.category, duration := d.duration, points := d.points,
         difficulty := d.difficulty, is_active := true,
         start_date := d.start_date, end_date := d.end_date }] }

/-!
## Concrete sample data used by witnesses and counterexamples
-/

/-- A concrete (tampered) stored activity worth 48 points, used to
exercise the deletion path on a user whose aggregates are all zero. -/
def tampered_activity : Activity := { id := 1, user_id := 1, type := "trash", points := 48 }

/-- The state holding `tampered_activity` for a user with zero points. -/
def tampered_state : LedgerState :=
  { user := { id := 1 }, activities := [tampered_activity], next_id := 2 }

/-- A concrete challenge rewarding 50 points. -/
def sample_challenge : Challenge := { id := 9, points := 50 }

/-- A state in which user 5 (zero points) has joined `sample_challenge`. -/
def joined_state : ChallengeState :=
  { user := { id := 5 }, challenges := [sample_challenge],
    participations := [{ user_id := 5, challenge_id := 9 }] }

/-- `joined_state` after one `update_progress(100)` call: the bonus was
credited once and the participation is completed. -/
def joined_state_after_one : ChallengeState :=
  { user := { id := 5, total_points := 50, weekly_points := 50 },
    challenges := [sample_challenge],
    participations :=
      [{ user_id := 5, challenge_id := 9, joined_at := 0, progress := 100, completed := true }] }

/-- `joined_state` after two `update_progress(100)` calls: the bonus has
been credited twice. -/
def joined_state_after_two : ChallengeState :=
  { user := { id := 5, total_points := 100, weekly_points := 100 },
    challenges := [sample_challenge],
    participations :=
      [{ user_id := 5, challenge_id := 9, joined_at := 0, progress := 100, completed := true }] }

/-- A still-active challenge whose [start, end] window has passed. -/
def expired_challenge : Challenge :=
  { id := 3, points := 120, is_active := true, start_date := some 0, end_date := some 100 }

/-- A state where user 7 has not joined `expired_challenge`. -/
def expired_state : ChallengeState :=
  { user := { id := 7 }, challenges := [expired_challenge], participations := [] }

/-- A trash activity payload with 3 bags collected: worth 40 points,
accruing 6 kg trash and 1.5 kg CO2. -/
def trash_sample : ActivityData :=
  { type := "trash", title := "Beach cleanup", description := "cleaned the beach",
    impact_data := some { bags_collected := some 3 } }

/-- A fresh state: user 1 with zero aggregates and no activities. -/
def clean_state : LedgerState := { user := { id := 1 } }

/-- An update payload that rewrites `impact_data` (allowed by
`ActivityUpdate`), used to exercise the update route. -/
def sample_update : ActivityUpdate := { impact_data := some (some { bags_collected := some 7 }) }

/-- `tampered_state` after applying `sample_update` to its activity:
`impact_data` changed, stored `points` (48) untouched. -/
def tampered_state_updated : LedgerState :=
  { user := { id := 1 },
    activities := [{ id := 1, user_id := 1, type := "trash", points := 48,
                     impact_data := some { bags_collected := some 7 } }],
    next_id := 2 }

/-- Active user 1 with 10 points, tied with `lb_user2`. -/
def lb_user1 : User := { id := 1, total_points := 10 }

/-- Active user 2 with 10 points, tied with `lb_user1`. -/
def lb_user2 : User := { id := 2, total_points := 10 }

/-!
## General lemmas about the operations
-/

theorem update_user_impact_stats_eq (u : User) (t : String) (d : ActivityData) :
    update_user_impact_stats u t d =
      { u with
        trash_collected := u.trash_collected + trash_delta t d
        trees_planted := u.trees_planted + trees_delta t d
        co2_saved := u.co2_saved + co2_delta t d } := by
  cases u
  unfold update_user_impact_stats trash_delta trees_delta co2_delta
  split_ifs <;> simp_all

theorem create_activity_eq (st : LedgerState) (d : ActivityData) :
    create_activity st d =
      { user := { st.user with
          total_points := st.user.total_points + calculate_points d.type d
          weekly_points := st.user.weekly_points + calculate_points d.type d
          trash_collected := st.user.trash_collected + trash_delta d.type d
          trees_planted := st.user.trees_planted + trees_delta d.type d
          co2_saved := st.user.co2_saved + co2_delta d.type d }
        activities := st.activities ++ [new_activity st.user.id st.next_id d]
        next_id := st.next_id + 1 } := by
  unfold create_activity
  dsimp only
  rw [update_user_impact_stats_eq]

theorem pyInt_nonneg (q : ℚ) (hq : 0 < q) : (0 : ℤ) ≤ pyInt q := by
  unfold pyInt
  rw [if_pos (le_of_lt hq)]
  exact Int.floor_nonneg.mpr (le_of_lt hq)

/-!
## C3 — scoring bounds and determinism
-/

/-- C3 (amended): for every valid category and every metrics input the
scoring function is deterministic (it is a pure function of its two
arguments by construction) and its result lies in [0, 200].  The result
is however not always an *integer*: metric values arrive as unvalidated
JSON numbers and a fractional `bags_collected` yields a fractional score
(see the counterexample), despite the declared `-> int` annotation. -/
theorem claim_C3_scoring_bounded (t : String) (ht : t ∈ allowed_types) (d : ActivityData) :
    0 ≤ calculate_points t d ∧ calculate_points t d ≤ 200 := by
  have hb : (10:ℚ) ≤ (base_points t).getD 10 := by
    unfold base_points; split_ifs <;> norm_num
  have hcast : ∀ q : ℚ, 0 < q → (0:ℚ) ≤ ((pyInt q : ℤ) : ℚ) := by
    intro q hq
    exact_mod_cast pyInt_nonneg q hq
  clear ht
  constructor
  · unfold calculate_points
    dsimp only
    rcases hdi : d.impact_data with _ | di <;> simp only [hdi] <;>
      simp only [min_def] <;> split_ifs <;>
      first
        | linarith [hb]
        | linarith [hb, hcast _ (by assumption)]
  · unfold calculate_points
    dsimp only
    apply min_le_right

/-- Witness for C3 at a concrete valid input. -/
theorem claim_C3_scoring_bounded_witness :
    ("trash" ∈ allowed_types) ∧
      (0 ≤ calculate_points "trash" { type := "trash" } ∧
        calculate_points "trash" { type := "trash" } ≤ 200) :=
  ⟨by simp [allowed_types],
    claim_C3_scoring_bounded "trash" (by simp [allowed_types]) { type := "trash" }⟩

/-- Counterexample to C3 as stated: with the legal JSON payload
`impact_data = {"bags_collected": 2.5}` (the schema accepts any values),
`calculate_points` returns 37.5, which is not an integer — the claim
that the scoring function always returns an *integer* in [0, 200] fails
(the [0, 200] part holds). -/
theorem claim_C3_counterexample :
    calculate_points "trash"
        { type := "trash", impact_data := some { bags_collected := some (5/2) } } = 75/2 ∧
      ¬ ∃ n : ℤ, calculate_points "trash"
        { type := "trash", impact_data := some { bags_collected := some (5/2) } } = (n : ℚ) := by
  have h : calculate_points "trash"
      { type := "trash", impact_data := some { bags_collected := some (5/2) } } = 75/2 := by
    norm_num [calculate_points, base_points, truthyStr, truthyList, min_def]
  refine ⟨h, ?_⟩
  rintro ⟨n, hn⟩
  rw [h] at hn
  have h3 : (75 : ℤ) = 2 * n := by
    have h2 : (75 : ℚ) = 2 * (n : ℚ) := by
      field_simp at hn
      linarith
    exact_mod_cast h2
  omega

/-!
## C4 — unknown categories
-/

/-- C4 (amended): an unknown category is rejected by the pydantic
validator `ActivityCreate.validate_type`, so the create-activity
pipeline fails with a ValidationError before any scoring happens.  (The
bare scoring function itself does *not* fail on an unknown category —
see the counterexample.) -/
theorem claim_C4_unknown_type_rejected (st : LedgerState) (d : ActivityData)
    (h : d.type ∉ allowed_types) :
    create_activity_endpoint st d =
      .error (.validationError
        "Activity type must be one of: trash, trees, mobility, water, energy") := by
  unfold create_activity_endpoint ActivityCreate_validate validate_type
  simp [h]
  rfl

/-- Witness for C4 at the concrete unknown category "recycling". -/
theorem claim_C4_unknown_type_rejected_witness :
    ("recycling" ∉ allowed_types) ∧
      create_activity_endpoint { user := { id := 1 } } { type := "recycling" } =
        .error (.validationError
          "Activity type must be one of: trash, trees, mobility, water, energy") :=
  ⟨by simp [allowed_types],
    claim_C4_unknown_type_rejected { user := { id := 1 } } { type := "recycling" }
      (by simp [allowed_types])⟩

/-- Counterexample to C4 as stated: called directly with the unknown
category "recycling", `calculate_points` does not fail — it falls back
to `base_points.get(activity_type, 10)` and returns a point value
of 10. -/
theorem claim_C4_counterexample :
    calculate_points "recycling" { type := "recycling" } = 10 := by
  simp [calculate_points, base_points, truthyStr, truthyList, ImpactData.empty, min_def]
  norm_num

/-!
## C5 — deletion does not clamp and raises no InvariantViolation
-/

/-- C5 (amended): `delete_activity` performs no clamping and raises no
InvariantViolation.  Whenever the owned row is found it returns
successfully, subtracts the stored `points` from `total_points` and
`weekly_points` unconditionally — so an aggregate can be driven below
zero (see the counterexample) — and leaves the impact aggregates
untouched. -/
theorem claim_C5_no_clamping (st : LedgerState) (i : ℤ) (a : Activity)
    (h : owned_activity st i = some a) :
    delete_activity st i = .ok
      { st with
        user := { st.user with
          total_points := st.user.total_points - a.points
          weekly_points := st.user.weekly_points - a.points }
        activities := st.activities.eraseP fun b => b.id == i && b.user_id == st.user.id } := by
  unfold delete_activity
  rw [h]

/-- Witness for C5 on the concrete tampered state. -/
theorem claim_C5_no_clamping_witness :
    (owned_activity tampered_state 1 = some tampered_activity) ∧
    delete_activity tampered_state 1 = .ok
      { tampered_state with
        user := { tampered_state.user with
                  total_points := tampered_state.user.total_points - tampered_activity.points
                  weekly_points := tampered_state.user.weekly_points - tampered_activity.points }
        activities := tampered_state.activities.eraseP fun b =>
          b.id == 1 && b.user_id == tampered_state.user.id } := by
  have h : owned_activity tampered_state 1 = some tampered_activity := by
    simp [owned_activity, tampered_state, tampered_activity]
  exact ⟨h, claim_C5_no_clamping tampered_state 1 tampered_activity h⟩

/-- Counterexample to C5 as stated: deleting a 48-point activity from a
user whose `total_points` is 0 returns `.ok` (no InvariantViolation) and
leaves `total_points = -48`, a negative aggregate — nothing is clamped
to zero. -/
theorem claim_C5_counterexample :
    delete_activity
      { user := { id := 1 },
        activities := [{ id := 1, user_id := 1, type := "trash", points := 48 }],
        next_id := 2 } 1 =
    .ok { user := { id := 1, total_points := -48, weekly_points := -48 },
          activities := [], next_id := 2 } ∧ (-48 : ℚ) < 0 := by
  constructor
  · simp [delete_activity, owned_activity]
  · norm_num

/-!
## Lemmas about the challenge routes
-/

theorem progress_patch_user_id (uid cid : ℤ) (v : ℚ) (p : Participation) :
    (progress_patch uid cid v p).user_id = p.user_id := by
  unfold progress_patch; split_ifs <;> rfl

theorem progress_patch_challenge_id (uid cid : ℤ) (v : ℚ) (p : Participation) :
    (progress_patch uid cid v p).challenge_id = p.challenge_id := by
  unfold progress_patch; split_ifs <;> rfl

theorem find_participation_map (st : ChallengeState) (cid : ℤ) (u' : User)
    (f : Participation → Participation)
    (hid : u'.id = st.user.id)
    (hf : ∀ p, (f p).user_id = p.user_id ∧ (f p).challenge_id = p.challenge_id) :
    find_participation { st with user := u', participations := st.participations.map f } cid
      = (find_participation st cid).map f := by
  unfold find_participation
  dsimp only
  simp only [hid, List.find?_map]
  have hcomp : ((fun p => p.user_id == st.user.id && p.challenge_id == cid) ∘ f)
      = fun p => p.user_id == st.user.id && p.challenge_id == cid := by
    funext p
    simp [Function.comp, (hf p).1, (hf p).2]
  rw [hcomp]

theorem update_progress_complete (st : ChallengeState) (cid : ℤ) (ch : Challenge)
    (p0 : Participation) (v : ℚ)
    (hp : find_participation st cid = some p0)
    (hch : st.challenges.find? (fun c => c.id == cid) = some ch)
    (hv : 100 ≤ v) :
    update_challenge_progress st cid v = .ok
      { st with
        user := { st.user with
          total_points := st.user.total_points + ch.points
          weekly_points := st.user.weekly_points + ch.points }
        participations := st.participations.map (progress_patch st.user.id cid v) } := by
  unfold update_challenge_progress
  rw [hp]
  dsimp only
  rw [if_pos hv, hch]

theorem update_progress_complete_absent (st : ChallengeState) (cid : ℤ)
    (p0 : Participation) (v : ℚ)
    (hp : find_participation st cid = some p0)
    (hch : st.challenges.find? (fun c => c.id == cid) = none)
    (hv : 100 ≤ v) :
    update_challenge_progress st cid v = .ok
      { st with participations := st.participations.map (progress_patch st.user.id cid v) } := by
  unfold update_challenge_progress
  rw [hp]
  dsimp only
  rw [if_pos hv, hch]

theorem update_progress_below (st : ChallengeState) (cid : ℤ)
    (p0 : Participation) (v : ℚ)
    (hp : find_participation st cid = some p0)
    (hv : ¬ (100 ≤ v)) :
    update_challenge_progress st cid v = .ok
      { st with participations := st.participations.map (progress_patch st.user.id cid v) } := by
  unfold update_challenge_progress
  rw [hp]
  dsimp only
  rw [if_neg hv]

theorem update_progress_endpoint_eq (st : ChallengeState) (cid : ℤ) (v : ℚ)
    (h0 : ¬ v < 0) (h1 : ¬ v > 100) :
    update_progress_endpoint st cid v = update_challenge_progress st cid v := by
  unfold update_progress_endpoint validate_progress
  rw [if_neg h0, if_neg h1]
  rfl

theorem all_active_create_challenge (st : ChallengeState) (d : ChallengeCreateData)
    (nid : ℤ) (h : all_challenges_active st) :
    all_challenges_active (create_challenge st d nid) := by
  intro c hc
  unfold create_challenge at hc
  simp at hc
  rcases hc with hc | hc
  · exact h c hc
  · rw [hc]

theorem join_challenge_challenges (st : ChallengeState) (cid now : ℤ)
    (st' : ChallengeState) (h : join_challenge st cid now = .ok st') :
    st'.challenges = st.challenges := by
  unfold join_challenge at h
  cases hch : st.challenges.find? (fun c => c.id == cid) with
  | none => rw [hch] at h; cases h
  | some ch =>
    rw [hch] at h
    dsimp only at h
    by_cases ha : (!ch.is_active) = true
    · rw [if_pos ha] at h; cases h
    · rw [if_neg ha] at h
      cases hp : find_participation st cid with
      | some p => rw [hp] at h; cases h
      | none =>
        rw [hp] at h
        cases h
        rfl

theorem leave_challenge_challenges (st : ChallengeState) (cid : ℤ)
    (st' : ChallengeState) (h : leave_challenge st cid = .ok st') :
    st'.challenges = st.challenges := by
  unfold leave_challenge at h
  cases hp : find_participation st cid with
  | none => rw [hp] at h; cases h
  | some p =>
    rw [hp] at h
    dsimp only at h
    cases h
    rfl

theorem update_progress_challenges (st : ChallengeState) (cid : ℤ) (v : ℚ)
    (st' : ChallengeState) (h : update_challenge_progress st cid v = .ok st') :
    st'.challenges = st.challenges := by
  unfold update_challenge_progress at h
  cases hp : find_participation st cid with
  | none => rw [hp] at h; cases h
  | some p =>
    rw [hp] at h
    dsimp only at h
    by_cases hv : (100:ℚ) ≤ v
    · rw [if_pos hv] at h
      cases hch : st.challenges.find? (fun c => c.id == cid) with
      | none => rw [hch] at h; cases h; rfl
      | some ch => rw [hch] at h; cases h; rfl
    · rw [if_neg hv] at h
      cases h
      rfl

/-!
## C1 — completion bonus crediting
-/

/-- C1 (amended): the progress route has no `bonus_credited` guard: every
accepted call with progress ≥ 100 on a joined challenge credits
`reward_points` again, even when the participation is already completed.
Two sequential `update_progress(100)` calls increase `total_points` and
`weekly_points` by `2 * reward_points`, not by `reward_points`. -/
theorem claim_C1_second_call_credits_again (st : ChallengeState) (cid : ℤ) (ch : Challenge)
    (p0 : Participation)
    (hp : find_participation st cid = some p0)
    (hch : st.challenges.find? (fun c => c.id == cid) = some ch) :
    ∃ st1 st2,
      update_progress_endpoint st cid 100 = .ok st1 ∧
      update_progress_endpoint st1 cid 100 = .ok st2 ∧
      st2.user.total_points = st.user.total_points + ch.points + ch.points ∧
      st2.user.weekly_points = st.user.weekly_points + ch.points + ch.points := by
  have hep : ∀ s : ChallengeState,
      update_progress_endpoint s cid 100 = update_challenge_progress s cid 100 := fun s =>
    update_progress_endpoint_eq s cid 100 (by norm_num) (by norm_num)
  have h1 := update_progress_complete st cid ch p0 100 hp hch (by norm_num)
  have hp1 : find_participation
      { st with
        user := { st.user with
          total_points := st.user.total_points + ch.points
          weekly_points := st.user.weekly_points + ch.points }
        participations := st.participations.map (progress_patch st.user.id cid 100) } cid
      = some (progress_patch st.user.id cid 100 p0) := by
    rw [find_participation_map st cid
        { st.user with
          total_points := st.user.total_points + ch.points
          weekly_points := st.user.weekly_points + ch.points }
        (progress_patch st.user.id cid 100) rfl
        (fun p => ⟨progress_patch_user_id _ _ _ _, progress_patch_challenge_id _ _ _ _⟩), hp]
    rfl
  have h2 := update_progress_complete _ cid ch _ 100 hp1 hch (by norm_num)
  exact ⟨_, _, (hep st).trans h1, (hep _).trans h2, rfl, rfl⟩

/-- Witness for C1 on the concrete `joined_state`. -/
theorem claim_C1_second_call_credits_again_witness :
    (find_participation joined_state 9 = some { user_id := 5, challenge_id := 9 }) ∧
    (joined_state.challenges.find? (fun c => c.id == 9) = some sample_challenge) ∧
    (∃ st1 st2,
      update_progress_endpoint joined_state 9 100 = .ok st1 ∧
      update_progress_endpoint st1 9 100 = .ok st2 ∧
      st2.user.total_points
        = joined_state.user.total_points + sample_challenge.points + sample_challenge.points ∧
      st2.user.weekly_points
        = joined_state.user.weekly_points + sample_challenge.points + sample_challenge.points) := by
  have h1 : find_participation joined_state 9 = some { user_id := 5, challenge_id := 9 } := by
    simp [find_participation, joined_state]
  have h2 : joined_state.challenges.find? (fun c => c.id == 9) = some sample_challenge := by
    simp [joined_state, sample_challenge]
  exact ⟨h1, h2, claim_C1_second_call_credits_again joined_state 9 sample_challenge _ h1 h2⟩

/-- Counterexample to C1 as stated: on `joined_state` (reward 50), the
first `update_progress(100)` call credits 50 and the second call credits
50 again — the final total (100) differs from the total after one call
(50), so the second call does credit again. -/
theorem claim_C1_counterexample :
    update_progress_endpoint joined_state 9 100 = .ok joined_state_after_one ∧
    update_progress_endpoint joined_state_after_one 9 100 = .ok joined_state_after_two ∧
    joined_state_after_one.user.total_points
      = joined_state.user.total_points + sample_challenge.points ∧
    joined_state_after_two.user.total_points
      = joined_state_after_one.user.total_points + sample_challenge.points ∧
    joined_state_after_two.user.total_points ≠ joined_state_after_one.user.total_points := by
  refine ⟨?_, ?_, ?_, ?_, ?_⟩
  · norm_num [update_progress_endpoint, validate_progress, update_challenge_progress,
      find_participation, progress_patch, joined_state, joined_state_after_one,
      sample_challenge, min_def, decide_eq_true_eq, Bind.bind, Except.bind]
  · norm_num [update_progress_endpoint, validate_progress, update_challenge_progress,
      find_participation, progress_patch, joined_state_after_one, joined_state_after_two,
      sample_challenge, min_def, decide_eq_true_eq, Bind.bind, Except.bind]
  · norm_num [joined_state, joined_state_after_one, sample_challenge]
  · norm_num [joined_state_after_one, joined_state_after_two, sample_challenge]
  · norm_num [joined_state_after_one, joined_state_after_two]

/-!
## C6 — progress clamping
-/

/-- C6 (amended): values outside [0, 100] are rejected by the pydantic
validator with a ValidationError and nothing is stored (they are *not*
clamped and stored, contrary to the claim); an accepted value v ∈
[0, 100] is stored as `min(v, 100) = v` on the matching rows, so
progress stored through the endpoint does stay in [0, 100].  (The route
body itself clamps only from above; see the counterexample.) -/
theorem claim_C6_progress_stored (st : ChallengeState) (cid : ℤ) (p0 : Participation) (v : ℚ)
    (hp : find_participation st cid = some p0) :
    ((v < 0 ∨ 100 < v) →
      ∃ msg, update_progress_endpoint st cid v = .error (.validationError msg)) ∧
    (0 ≤ v → v ≤ 100 →
      ∃ st', update_progress_endpoint st cid v = .ok st' ∧
        st'.participations = st.participations.map (progress_patch st.user.id cid v) ∧
        ∀ q ∈ st'.participations, q.user_id = st.user.id → q.challenge_id = cid →
          q.progress = v) := by
  constructor
  · rintro (h | h)
    · refine ⟨"Progress cannot be negative", ?_⟩
      unfold update_progress_endpoint validate_progress
      rw [if_pos h]
      rfl
    · refine ⟨"Progress cannot exceed 100%", ?_⟩
      unfold update_progress_endpoint validate_progress
      rw [if_neg (by linarith : ¬ v < 0), if_pos h]
      rfl
  · intro h0 h1
    have hep := update_progress_endpoint_eq st cid v (by linarith) (by linarith)
    have hstore : ∀ st' : ChallengeState,
        st'.participations = st.participations.map (progress_patch st.user.id cid v) →
        ∀ q ∈ st'.participations, q.user_id = st.user.id → q.challenge_id = cid →
          q.progress = v := by
      intro st' hpart q hq hqu hqc
      rw [hpart] at hq
      obtain ⟨p, hpmem, hfp⟩ := List.mem_map.mp hq
      subst hfp
      by_cases hc : (p.user_id == st.user.id && p.challenge_id == cid) = true
      · unfold progress_patch
        rw [if_pos hc]
        simpa using min_eq_left h1
      · exfalso
        apply hc
        unfold progress_patch at hqu hqc
        rw [if_neg hc] at hqu hqc
        simp [hqu, hqc]
    by_cases hv : (100:ℚ) ≤ v
    · cases hch : st.challenges.find? (fun c => c.id == cid) with
      | some ch =>
          have h := update_progress_complete st cid ch p0 v hp hch hv
          exact ⟨_, hep.trans h, rfl, hstore _ rfl⟩
      | none =>
          have h := update_progress_complete_absent st cid p0 v hp hch hv
          exact ⟨_, hep.trans h, rfl, hstore _ rfl⟩
    · have h := update_progress_below st cid p0 v hp hv
      exact ⟨_, hep.trans h, rfl, hstore _ rfl⟩

/-- Witness for C6 at the in-range value 42 on `joined_state`. -/
theorem claim_C6_progress_stored_witness :
    (find_participation joined_state 9 = some { user_id := 5, challenge_id := 9 }) ∧
    ((((42:ℚ) < 0 ∨ (100:ℚ) < 42) →
        ∃ msg, update_progress_endpoint joined_state 9 42 = .error (.validationError msg)) ∧
      ((0:ℚ) ≤ 42 → (42:ℚ) ≤ 100 →
        ∃ st', update_progress_endpoint joined_state 9 42 = .ok st' ∧
          st'.participations
            = joined_state.participations.map (progress_patch joined_state.user.id 9 42) ∧
          ∀ q ∈ st'.participations, q.user_id = joined_state.user.id → q.challenge_id = 9 →
            q.progress = 42)) := by
  have h1 : find_participation joined_state 9 = some { user_id := 5, challenge_id := 9 } := by
    simp [find_participation, joined_state]
  exact ⟨h1, claim_C6_progress_stored joined_state 9 _ 42 h1⟩

/-- Counterexample to C6 as stated: for `new_progress = -5` the endpoint
does not store a clamped 0 — it fails with a ValidationError; and the
route body, called directly, would store the unclamped -5 (its clamp
`min(progress, 100)` is one-sided). -/
theorem claim_C6_counterexample :
    update_progress_endpoint joined_state 9 (-5) =
        .error (.validationError "Progress cannot be negative") ∧
    update_challenge_progress joined_state 9 (-5) = .ok
      { joined_state with
        participations :=
          [{ user_id := 5, challenge_id := 9, joined_at := 0,
             progress := -5, completed := false }] } ∧
    ((-5 : ℚ) < 0) := by
  refine ⟨?_, ?_, by norm_num⟩
  · norm_num [update_progress_endpoint, validate_progress, Bind.bind, Except.bind]
  · norm_num [update_challenge_progress, find_participation, progress_patch,
      joined_state, sample_challenge, min_def, decide_eq_true_eq]

/-!
## C7 — duplicate join
-/

/-- C7 (confirmed): on a state satisfying the store invariants
(foreign keys intact, every challenge active — the latter holds in all
API-reachable states because nothing ever deactivates a challenge, see
`all_active_create_challenge` and the `*_challenges` frame lemmas), a
join for a pair that already has a participation row always fails with
ConflictError, and no successful join can ever introduce a second row
for a pair. -/
theorem claim_C7_duplicate_join_conflict (st : ChallengeState) (cid now : ℤ)
    (hfk : participation_fk st) (hact : all_challenges_active st) :
    (∀ p0, find_participation st cid = some p0 →
        join_challenge st cid now = .error .conflictError) ∧
    (at_most_one_per_pair st.participations →
      ∀ st', join_challenge st cid now = .ok st' →
        at_most_one_per_pair st'.participations) := by
  constructor
  · intro p0 hp
    have hmem : p0 ∈ st.participations := List.mem_of_find?_eq_some hp
    have hpred := List.find?_some hp
    simp only [Bool.and_eq_true, beq_iff_eq] at hpred
    obtain ⟨c, hcmem, hcid⟩ := hfk p0 hmem
    have hsome : (st.challenges.find? (fun c => c.id == cid)).isSome :=
      List.find?_isSome.mpr ⟨c, hcmem, by simp [hcid, hpred.2]⟩
    obtain ⟨ch, hch⟩ := Option.isSome_iff_exists.mp hsome
    unfold join_challenge
    rw [hch]
    dsimp only
    have hchact : ch.is_active = true := hact ch (List.mem_of_find?_eq_some hch)
    rw [if_neg (by simp [hchact])]
    rw [hp]
  · intro hone st' hok
    unfold join_challenge at hok
    cases hch : st.challenges.find? (fun c => c.id == cid) with
    | none => rw [hch] at hok; cases hok
    | some ch =>
      rw [hch] at hok
      dsimp only at hok
      by_cases ha : (!ch.is_active) = true
      · rw [if_pos ha] at hok; cases hok
      · rw [if_neg ha] at hok
        cases hpf : find_participation st cid with
        | some p => rw [hpf] at hok; cases hok
        | none =>
          rw [hpf] at hok
          cases hok
          unfold at_most_one_per_pair
          rw [List.pairwise_append]
          refine ⟨hone, List.pairwise_singleton _ _, ?_⟩
          intro a ha2 b hb
          simp only [List.mem_singleton] at hb
          subst hb
          intro hkeys
          unfold find_participation at hpf
          have hnone := List.find?_eq_none.mp hpf a ha2
          apply hnone
          simp only [Bool.and_eq_true, beq_iff_eq]
          exact ⟨hkeys.1, hkeys.2⟩

/-- Witness for C7 on the concrete `joined_state`. -/
theorem claim_C7_duplicate_join_conflict_witness :
    participation_fk joined_state ∧ all_challenges_active joined_state ∧
    ((∀ p0, find_participation joined_state 9 = some p0 →
        join_challenge joined_state 9 0 = .error .conflictError) ∧
      (at_most_one_per_pair joined_state.participations →
        ∀ st', join_challenge joined_state 9 0 = .ok st' →
          at_most_one_per_pair st'.participations)) := by
  have hfk : participation_fk joined_state := by
    intro p hp
    simp only [joined_state, List.mem_singleton] at hp
    subst hp
    exact ⟨sample_challenge, by simp [joined_state], by simp [sample_challenge]⟩
  have hact : all_challenges_active joined_state := by
    intro c hc
    simp only [joined_state, List.mem_singleton] at hc
    subst hc
    rfl
  exact ⟨hfk, hact, claim_C7_duplicate_join_conflict joined_state 9 0 hfk hact⟩

/-!
## C8 — join and the activity window
-/

/-- C8 (amended): `join_challenge` consults only the `is_active` flag —
the [start, end] window is never checked.  For a found challenge, an
inactive flag yields InactiveChallengeError for every `now`, and an
active flag with no prior participation yields success for every `now`,
even when `now` lies outside [start, end] (see the counterexample). -/
theorem claim_C8_window_ignored (st : ChallengeState) (cid : ℤ) (ch : Challenge)
    (hch : st.challenges.find? (fun c => c.id == cid) = some ch) :
    (ch.is_active = false → ∀ now, join_challenge st cid now = .error .inactiveChallengeError) ∧
    (ch.is_active = true → find_participation st cid = none →
      ∀ now, join_challenge st cid now = .ok
        { st with participations := st.participations ++
            [{ user_id := st.user.id, challenge_id := cid, joined_at := now }] }) := by
  constructor
  · intro hin now
    unfold join_challenge
    rw [hch]
    dsimp only
    rw [if_pos (by simp [hin])]
  · intro hac hnone now
    unfold join_challenge
    rw [hch]
    dsimp only
    rw [if_neg (by simp [hac]), hnone]

/-- Witness for C8 on the concrete `expired_state`. -/
theorem claim_C8_window_ignored_witness :
    (expired_state.challenges.find? (fun c => c.id == 3) = some expired_challenge) ∧
    ((expired_challenge.is_active = false →
        ∀ now, join_challenge expired_state 3 now = .error .inactiveChallengeError) ∧
      (expired_challenge.is_active = true → find_participation expired_state 3 = none →
        ∀ now, join_challenge expired_state 3 now = .ok
          { expired_state with participations := expired_state.participations ++
              [{ user_id := expired_state.user.id, challenge_id := 3, joined_at := now }] })) := by
  have hch : expired_state.challenges.find? (fun c => c.id == 3) = some expired_challenge := by
    simp [expired_state, expired_challenge]
  exact ⟨hch, claim_C8_window_ignored expired_state 3 expired_challenge hch⟩

/-- Counterexample to C8 as stated: `expired_challenge` is active but its
window ended at time 100; a join at time 200 nevertheless succeeds,
where the claim demands InactiveChallengeError whenever now ∉
[start, end]. -/
theorem claim_C8_counterexample :
    expired_challenge.is_active = true ∧
    expired_challenge.end_date = some 100 ∧ (100 : ℤ) < 200 ∧
    join_challenge expired_state 3 200 = .ok
      { expired_state with
        participations := [{ user_id := 7, challenge_id := 3, joined_at := 200 }] } := by
  refine ⟨rfl, rfl, by norm_num, ?_⟩
  norm_num [join_challenge, expired_state, expired_challenge, find_participation]

/-!
## C9 — leaderboard ordering
-/

/-- C9 (amended): every list the leaderboard query may return is sorted
descending by `total_points` (all_time) or by `(weekly_points,
total_points)` lexicographically (weekly/monthly), contains only active
users matching the region filter, and respects the limit.  No further
key constrains ties: neither the user id nor the persisted `rank` column
appears in `lbRel`, so the relative order of tied users is chosen by the
database engine and repeated calls need not agree (see the
counterexample). -/
theorem claim_C9_leaderboard_sorted (tf : String) (region : Option String) (limit : ℕ)
    (users out : List User) (h : leaderboard_ok tf region limit users out) :
    out.Pairwise (lbRel tf) ∧
    (∀ u ∈ out, u.is_active = true ∧ regionMatch region u = true) ∧
    out.length ≤ limit := by
  obtain ⟨su, hperm, hsort, rfl⟩ := h
  refine ⟨List.Pairwise.sublist (List.take_sublist _ _) hsort, ?_, List.length_take_le _ _⟩
  intro u hu
  have hmem : u ∈ su := (List.take_sublist _ _).mem hu
  have hfil : u ∈ leaderboard_filter region users := hperm.mem_iff.mpr hmem
  unfold leaderboard_filter at hfil
  have := List.mem_filter.mp hfil
  simpa [Bool.and_eq_true] using this.2

/-- Witness for C9 on a one-user snapshot. -/
theorem claim_C9_leaderboard_sorted_witness :
    leaderboard_ok "all_time" none 50 [lb_user1] [lb_user1] ∧
    (([lb_user1] : List User).Pairwise (lbRel "all_time") ∧
      (∀ u ∈ ([lb_user1] : List User), u.is_active = true ∧ regionMatch none u = true) ∧
      ([lb_user1] : List User).length ≤ 50) := by
  have h : leaderboard_ok "all_time" none 50 [lb_user1] [lb_user1] :=
    ⟨[lb_user1], by simp [leaderboard_filter, regionMatch, lb_user1],
      List.pairwise_singleton _ _, (List.take_of_length_le (by norm_num)).symm⟩
  exact ⟨h, claim_C9_leaderboard_sorted "all_time" none 50 [lb_user1] [lb_user1] h⟩

/-- Counterexample to C9 as stated: users 1 and 2 are tied on
`total_points`; both the order [2, 1] and the order [1, 2] satisfy the
contract of the leaderboard query on the same snapshot, so the result is
not deterministic and ties are not broken by ascending user id. -/
theorem claim_C9_counterexample :
    leaderboard_ok "all_time" none 50 [lb_user2, lb_user1] [lb_user2, lb_user1] ∧
    leaderboard_ok "all_time" none 50 [lb_user2, lb_user1] [lb_user1, lb_user2] ∧
    ([lb_user2, lb_user1] : List User) ≠ [lb_user1, lb_user2] := by
  have hfilter : leaderboard_filter none [lb_user2, lb_user1] = [lb_user2, lb_user1] := by
    simp [leaderboard_filter, regionMatch, lb_user1, lb_user2]
  have hpair1 : ([lb_user2, lb_user1] : List User).Pairwise (lbRel "all_time") := by
    refine List.pairwise_cons.mpr ⟨?_, List.pairwise_singleton _ _⟩
    intro b hb
    simp only [List.mem_singleton] at hb
    subst hb
    simp [lbRel, lb_user1, lb_user2]
  have hpair2 : ([lb_user1, lb_user2] : List User).Pairwise (lbRel "all_time") := by
    refine List.pairwise_cons.mpr ⟨?_, List.pairwise_singleton _ _⟩
    intro b hb
    simp only [List.mem_singleton] at hb
    subst hb
    simp [lbRel, lb_user1, lb_user2]
  refine ⟨⟨[lb_user2, lb_user1], by rw [hfilter], hpair1,
      (List.take_of_length_le (by norm_num)).symm⟩,
    ⟨[lb_user1, lb_user2], by rw [hfilter]; exact List.Perm.swap lb_user1 lb_user2 [], hpair2,
      (List.take_of_length_le (by norm_num)).symm⟩, ?_⟩
  simp [lb_user1, lb_user2]

/-!
## C10 — update_activity frame property
-/

theorem apply_activity_update_points (a : Activity) (u : ActivityUpdate) :
    (apply_activity_update a u).points = a.points := rfl

theorem apply_activity_update_id (a : Activity) (u : ActivityUpdate) :
    (apply_activity_update a u).id = a.id := rfl

theorem apply_activity_update_user_id (a : Activity) (u : ActivityUpdate) :
    (apply_activity_update a u).user_id = a.user_id := rfl

/-- C10 (confirmed): a successful `update_activity` call never changes
the user row (so no aggregate moves), never changes any stored `points`,
id or owner, and consequently a later `delete_activity` observes exactly
the same point totals as it would have without the update — it subtracts
the points awarded at creation even when `impact_data` was modified in
between. -/
theorem claim_C10_update_frame (st : LedgerState) (i : ℤ) (upd : ActivityUpdate)
    (st' : LedgerState) (h : update_activity st i upd = .ok st') :
    st'.user = st.user ∧
    st'.activities.map (fun a => a.points) = st.activities.map (fun a => a.points) ∧
    st'.activities.map (fun a => a.id) = st.activities.map (fun a => a.id) ∧
    st'.activities.map (fun a => a.user_id) = st.activities.map (fun a => a.user_id) ∧
    ∀ j, (delete_activity st' j).map (fun s => (s.user.total_points, s.user.weekly_points))
      = (delete_activity st j).map (fun s => (s.user.total_points, s.user.weekly_points)) := by
  unfold update_activity at h
  cases hfind : owned_activity st i with
  | none => rw [hfind] at h; cases h
  | some a0 =>
    rw [hfind] at h
    dsimp only at h
    cases h
    set g := fun a : Activity =>
      if a.id == i && a.user_id == st.user.id then apply_activity_update a upd else a with hg
    have hgp : ∀ a : Activity, (g a).points = a.points := by
      intro a
      rw [hg]
      by_cases hc : (a.id == i && a.user_id == st.user.id) = true <;>
        simp [hc, apply_activity_update]
    have hgi : ∀ a : Activity, (g a).id = a.id := by
      intro a
      rw [hg]
      by_cases hc : (a.id == i && a.user_id == st.user.id) = true <;>
        simp [hc, apply_activity_update]
    have hgu : ∀ a : Activity, (g a).user_id = a.user_id := by
      intro a
      rw [hg]
      by_cases hc : (a.id == i && a.user_id == st.user.id) = true <;>
        simp [hc, apply_activity_update]
    refine ⟨rfl, ?_, ?_, ?_, ?_⟩
    · rw [List.map_map]
      exact List.map_congr_left fun a _ => hgp a
    · rw [List.map_map]
      exact List.map_congr_left fun a _ => hgi a
    · rw [List.map_map]
      exact List.map_congr_left fun a _ => hgu a
    · intro j
      unfold delete_activity owned_activity
      have hpred : ((fun b : Activity => b.id == j && b.user_id == st.user.id) ∘ g)
          = fun b : Activity => b.id == j && b.user_id == st.user.id := by
        funext b
        simp [Function.comp, hgi b, hgu b]
      rw [List.find?_map, hpred]
      cases hf : st.activities.find? (fun b => b.id == j && b.user_id == st.user.id) with
      | none => rfl
      | some b =>
        simp only [Option.map_some]
        simp [hgp b, Except.map]

/-- Witness for C10: updating `impact_data` on the 48-point activity of
`tampered_state` leaves the user, the stored points and the deletion
outcome unchanged. -/
theorem claim_C10_update_frame_witness :
    (update_activity tampered_state 1 sample_update = .ok tampered_state_updated) ∧
    tampered_state_updated.user = tampered_state.user ∧
    tampered_state_updated.activities.map (fun a => a.points)
      = tampered_state.activities.map (fun a => a.points) ∧
    tampered_state_updated.activities.map (fun a => a.id)
      = tampered_state.activities.map (fun a => a.id) ∧
    tampered_state_updated.activities.map (fun a => a.user_id)
      = tampered_state.activities.map (fun a => a.user_id) ∧
    (delete_activity tampered_state_updated 1).map
        (fun s => (s.user.total_points, s.user.weekly_points))
      = (delete_activity tampered_state 1).map
        (fun s => (s.user.total_points, s.user.weekly_points)) := by
  have h : update_activity tampered_state 1 sample_update = .ok tampered_state_updated := by
    simp [update_activity, owned_activity, tampered_state, tampered_activity,
      apply_activity_update, sample_update, tampered_state_updated]
  have hc := claim_C10_update_frame tampered_state 1 sample_update tampered_state_updated h
  exact ⟨h, hc.1, hc.2.1, hc.2.2.1, hc.2.2.2.1, hc.2.2.2.2 1⟩

/-!
## C2 — create/delete round trip

List machinery for reasoning about a batch of creations followed by the
deletions of the same records.
-/

theorem eraseP_eq_filter_of_countP_le_one {α : Type} (p : α → Bool) (l : List α)
    (h : l.countP p ≤ 1) : l.eraseP p = l.filter (fun x => !p x) := by
  induction l with
  | nil => rfl
  | cons x xs ih =>
    rw [List.countP_cons] at h
    by_cases hp : p x = true
    · rw [List.eraseP_cons_of_pos hp, List.filter_cons_of_neg (by simp [hp])]
      have h0 : xs.countP p = 0 := by
        rw [if_pos hp] at h
        omega
      have hall := List.countP_eq_zero.mp h0
      rw [List.filter_eq_self.mpr (fun a ha => by simp [hall a ha])]
    · rw [List.eraseP_cons_of_neg (by simp [hp]), List.filter_cons_of_pos (by simp [hp])]
      rw [if_neg hp] at h
      rw [ih (by omega)]

theorem find?_filter_of_imp {α : Type} (pr q : α → Bool) (l : List α)
    (h : ∀ x, pr x = true → q x = true) :
    (l.filter q).find? pr = l.find? pr := by
  induction l with
  | nil => rfl
  | cons x xs ih =>
    by_cases hq : q x = true
    · rw [List.filter_cons_of_pos hq]
      by_cases hp : pr x = true
      · rw [List.find?_cons_of_pos _ hp, List.find?_cons_of_pos _ hp]
      · rw [List.find?_cons_of_neg _ (by simp_all), List.find?_cons_of_neg _ (by simp_all), ih]
    · have hp : pr x = false := by
        cases hpx : pr x
        · rfl
        · exact absurd (h x hpx) (by simp [hq])
      rw [List.filter_cons_of_neg (by simp [hq]), List.find?_cons_of_neg _ (by simp [hp]), ih]

theorem countP_key_le_one (l : List Activity) (h : (l.map (fun a => a.id)).Nodup)
    (i uid : ℤ) : l.countP (fun a => a.id == i && a.user_id == uid) ≤ 1 := by
  induction l with
  | nil => simp
  | cons x xs ih =>
    simp only [List.map_cons, List.nodup_cons] at h
    rw [List.countP_cons]
    by_cases hp : (x.id == i && x.user_id == uid) = true
    · rw [if_pos hp]
      simp only [Bool.and_eq_true, beq_iff_eq] at hp
      have h0 : xs.countP (fun a => a.id == i && a.user_id == uid) = 0 := by
        rw [List.countP_eq_zero]
        intro a ha hpa
        simp only [Bool.and_eq_true, beq_iff_eq] at hpa
        exact h.1 (by rw [hp.1, ← hpa.1]; exact List.mem_map_of_mem _ ha)
      omega
    · rw [if_neg hp]
      have := ih h.2
      omega

/-- `delete_activity` on a found owned row: exact subtraction of the
stored points, impact aggregates untouched, the row removed. -/
theorem delete_activity_found (st : LedgerState) (i : ℤ) (a : Activity)
    (h : owned_activity st i = some a) :
    delete_activity st i = .ok
      { st with
        user := { st.user with
          total_points := st.user.total_points - a.points
          weekly_points := st.user.weekly_points - a.points }
        activities := st.activities.eraseP fun b => b.id == i && b.user_id == st.user.id } := by
  unfold delete_activity
  rw [h]

/-- Effect of a batch of deletions of distinct, present, owned rows:
each stored `points` value is subtracted exactly once from
`total_points` and `weekly_points`; the impact aggregates never move. -/
theorem delete_many_spec : ∀ (ids : List ℤ) (st : LedgerState),
    ids.Nodup →
    (st.activities.map (fun a => a.id)).Nodup →
    (∀ j ∈ ids, ∃ a ∈ st.activities, a.id = j ∧ a.user_id = st.user.id) →
    ∃ st', delete_many st ids = .ok st' ∧
      st'.user.id = st.user.id ∧
      st'.user.total_points
        = st.user.total_points - (ids.map (points_of st.activities st.user.id)).sum ∧
      st'.user.weekly_points
        = st.user.weekly_points - (ids.map (points_of st.activities st.user.id)).sum ∧
      st'.user.trash_collected = st.user.trash_collected ∧
      st'.user.trees_planted = st.user.trees_planted ∧
      st'.user.co2_saved = st.user.co2_saved := by
  intro ids
  induction ids with
  | nil =>
    intro st _ _ _
    exact ⟨st, rfl, rfl, by simp, by simp, rfl, rfl, rfl⟩
  | cons i ids ih =>
    intro st hnd hact hmem
    obtain ⟨hnotmem, hndtail⟩ := List.nodup_cons.mp hnd
    -- the record deleted by the head call
    obtain ⟨a, hamem, haid, hauid⟩ := hmem i (List.mem_cons_self _ _)
    have hsome : (st.activities.find? (fun b => b.id == i && b.user_id == st.user.id)).isSome :=
      List.find?_isSome.mpr ⟨a, hamem, by simp [haid, hauid]⟩
    obtain ⟨a', hfind⟩ := Option.isSome_iff_exists.mp hsome
    have hfind' : owned_activity st i = some a' := hfind
    have ha'pred := List.find?_some hfind
    simp only [Bool.and_eq_true, beq_iff_eq] at ha'pred
    have hdel := delete_activity_found st i a' hfind'
    -- the state after the head delete, with eraseP rewritten to filter
    have hcount := countP_key_le_one st.activities hact i st.user.id
    have herase : st.activities.eraseP (fun b => b.id == i && b.user_id == st.user.id)
        = st.activities.filter (fun b => !(b.id == i && b.user_id == st.user.id)) :=
      eraseP_eq_filter_of_countP_le_one _ _ hcount
    set st1 : LedgerState :=
      { st with
        user := { st.user with
          total_points := st.user.total_points - a'.points
          weekly_points := st.user.weekly_points - a'.points }
        activities :=
          st.activities.filter (fun b => !(b.id == i && b.user_id == st.user.id)) } with hst1
    have hdel1 : delete_activity st i = .ok st1 := by
      rw [hdel, hst1, herase]
    -- hypotheses for the tail
    have hact1 : (st1.activities.map (fun a => a.id)).Nodup := by
      rw [hst1]
      exact List.Nodup.sublist (List.Sublist.map _ (List.filter_sublist _)) hact
    have hmem1 : ∀ j ∈ ids, ∃ b ∈ st1.activities, b.id = j ∧ b.user_id = st1.user.id := by
      intro j hj
      obtain ⟨b, hbmem, hbid, hbuid⟩ := hmem j (List.mem_cons_of_mem _ hj)
      have hbne : ¬ (b.id == i && b.user_id == st.user.id) = true := by
        simp only [Bool.and_eq_true, beq_iff_eq, not_and]
        intro hbi
        exact absurd (hbi ▸ hbid) (by rintro rfl; exact hnotmem hj)
      refine ⟨b, ?_, hbid, hbuid⟩
      rw [hst1]
      simp only [List.mem_filter]
      exact ⟨hbmem, by simp [hbne]⟩
    have hpts : ∀ j ∈ ids, points_of st1.activities st1.user.id j
        = points_of st.activities st.user.id j := by
      intro j hj
      have hji : j ≠ i := fun hji => hnotmem (hji ▸ hj)
      unfold points_of
      rw [hst1]
      dsimp only
      rw [find?_filter_of_imp _ _ _ ?_]
      intro x hx
      simp only [Bool.and_eq_true, beq_iff_eq] at hx
      simp [hx.1, hx.2, hji]
    obtain ⟨st'', hdm, hid, htot, hweek, htr, hte, hco⟩ := ih st1 hndtail hact1 hmem1
    have hpt_i : points_of st.activities st.user.id i = a'.points := by
      unfold points_of
      rw [hfind]
    have hsum : (ids.map (points_of st1.activities st1.user.id)).sum
        = (ids.map (points_of st.activities st.user.id)).sum := by
      congr 1
      exact List.map_congr_left hpts
    refine ⟨st'', ?_, ?_, ?_, ?_, ?_, ?_, ?_⟩
    · simp only [delete_many]
      rw [hdel1]
      exact hdm
    · rw [hid, hst1]
    · rw [htot, hsum, List.map_cons, List.sum_cons, hpt_i, hst1]
      dsimp only
      ring
    · rw [hweek, hsum, List.map_cons, List.sum_cons, hpt_i, hst1]
      dsimp only
      ring
    · rw [htr, hst1]
    · rw [hte, hst1]
    · rw [hco, hst1]

/-- Effect of a batch of creations: the new rows are appended with
consecutive fresh ids and the user accrues the sum of the computed
points and impact deltas. -/
theorem create_many_spec : ∀ (ds : List ActivityData) (st : LedgerState),
    (create_many st ds).activities
        = st.activities ++ created_records st.user.id st.next_id ds ∧
    (create_many st ds).user.id = st.user.id ∧
    (create_many st ds).next_id = st.next_id + ds.length ∧
    (create_many st ds).user.total_points
        = st.user.total_points + (ds.map (fun d => calculate_points d.type d)).sum ∧
    (create_many st ds).user.weekly_points
        = st.user.weekly_points + (ds.map (fun d => calculate_points d.type d)).sum ∧
    (create_many st ds).user.trash_collected
        = st.user.trash_collected + (ds.map (fun d => trash_delta d.type d)).sum ∧
    (create_many st ds).user.trees_planted
        = st.user.trees_planted + (ds.map (fun d => trees_delta d.type d)).sum ∧
    (create_many st ds).user.co2_saved
        = st.user.co2_saved + (ds.map (fun d => co2_delta d.type d)).sum := by
  intro ds
  induction ds with
  | nil =>
    intro st
    refine ⟨by simp [create_many, created_records], rfl, by simp [create_many], ?_, ?_, ?_, ?_, ?_⟩ <;>
      simp [create_many]
  | cons d ds ih =>
    intro st
    have hstep := create_activity_eq st d
    have hu_id : (create_activity st d).user.id = st.user.id := by rw [hstep]
    have hacts : (create_activity st d).activities
        = st.activities ++ [new_activity st.user.id st.next_id d] := by rw [hstep]
    have hnid : (create_activity st d).next_id = st.next_id + 1 := by rw [hstep]
    have hu_t : (create_activity st d).user.total_points
        = st.user.total_points + calculate_points d.type d := by rw [hstep]
    have hu_w : (create_activity st d).user.weekly_points
        = st.user.weekly_points + calculate_points d.type d := by rw [hstep]
    have hu_tr : (create_activity st d).user.trash_collected
        = st.user.trash_collected + trash_delta d.type d := by rw [hstep]
    have hu_te : (create_activity st d).user.trees_planted
        = st.user.trees_planted + trees_delta d.type d := by rw [hstep]
    have hu_co : (create_activity st d).user.co2_saved
        = st.user.co2_saved + co2_delta d.type d := by rw [hstep]
    have hone : create_many st (d :: ds) = create_many (create_activity st d) ds := rfl
    obtain ⟨ha, hi, hn, ht, hw, htr, hte, hco⟩ := ih (create_activity st d)
    rw [hone]
    refine ⟨?_, ?_, ?_, ?_, ?_, ?_, ?_, ?_⟩
    · rw [ha, hacts, hu_id, hnid]
      rw [show created_records st.user.id st.next_id (d :: ds)
          = new_activity st.user.id st.next_id d
            :: created_records st.user.id (st.next_id + 1) ds from rfl]
      simp
    · rw [hi, hu_id]
    · rw [hn, hnid]
      simp only [List.length_cons]
      push_cast
      ring
    · rw [ht, hu_t]
      simp only [List.map_cons, List.sum_cons]
      ring
    · rw [hw, hu_w]
      simp only [List.map_cons, List.sum_cons]
      ring
    · rw [htr, hu_tr]
      simp only [List.map_cons, List.sum_cons]
      ring
    · rw [hte, hu_te]
      simp only [List.map_cons, List.sum_cons]
      ring
    · rw [hco, hu_co]
      simp only [List.map_cons, List.sum_cons]
      ring

theorem created_ids_mem : ∀ (n : ℕ) (start j : ℤ),
    j ∈ created_ids start n ↔ start ≤ j ∧ j < start + n := by
  intro n
  induction n with
  | zero => intro start j; simp [created_ids]
  | succ n ih =>
    intro start j
    simp only [created_ids, List.mem_cons, ih (start + 1) j]
    constructor
    · rintro (rfl | ⟨h1, h2⟩) <;> (push_cast; omega)
    · intro ⟨h1, h2⟩
      by_cases hj : j = start
      · exact Or.inl hj
      · refine Or.inr ⟨by omega, by push_cast at h2 ⊢; omega⟩

theorem created_ids_nodup : ∀ (n : ℕ) (start : ℤ), (created_ids start n).Nodup := by
  intro n
  induction n with
  | zero => intro start; simp [created_ids]
  | succ n ih =>
    intro start
    simp only [created_ids, List.nodup_cons]
    refine ⟨?_, ih (start + 1)⟩
    rw [created_ids_mem]
    omega

theorem created_records_map_id (uid : ℤ) : ∀ (ds : List ActivityData) (start : ℤ),
    (created_records uid start ds).map (fun a => a.id) = created_ids start ds.length := by
  intro ds
  induction ds with
  | nil => intro start; rfl
  | cons d ds ih =>
    intro start
    simp only [created_records, List.map_cons, List.length_cons, created_ids]
    rw [ih (start + 1)]
    rfl

theorem created_records_mem_of_id (uid : ℤ) : ∀ (ds : List ActivityData) (start j : ℤ),
    j ∈ created_ids start ds.length →
    ∃ a ∈ created_records uid start ds, a.id = j ∧ a.user_id = uid := by
  intro ds
  induction ds with
  | nil => intro start j h; simp [created_ids] at h
  | cons d ds ih =>
    intro start j h
    simp only [List.length_cons, created_ids, List.mem_cons] at h
    rcases h with rfl | h
    · exact ⟨new_activity uid j d, by simp [created_records], rfl, rfl⟩
    · obtain ⟨a, ham, haj, hau⟩ := ih (start + 1) j h
      exact ⟨a, by simp [created_records, ham], haj, hau⟩

theorem sum_points_of_created (uid : ℤ) : ∀ (ds : List ActivityData) (start : ℤ)
    (old : List Activity), (∀ a ∈ old, a.id < start) →
    ((created_ids start ds.length).map
        (points_of (old ++ created_records uid start ds) uid)).sum
      = (ds.map (fun d => calculate_points d.type d)).sum := by
  intro ds
  induction ds with
  | nil => intro start old h; simp [created_ids, created_records]
  | cons d ds ih =>
    intro start old hold
    rw [show created_records uid start (d :: ds)
        = new_activity uid start d :: created_records uid (start + 1) ds from rfl]
    rw [show created_ids start (d :: ds).length
        = start :: created_ids (start + 1) ds.length from rfl]
    simp only [List.map_cons, List.sum_cons]
    have hhead : points_of (old ++ new_activity uid start d
        :: created_records uid (start + 1) ds) uid start = calculate_points d.type d := by
      unfold points_of
      rw [List.find?_append]
      have hnone : old.find? (fun a => a.id == start && a.user_id == uid) = none := by
        rw [List.find?_eq_none]
        intro x hx
        simp only [Bool.and_eq_true, beq_iff_eq, not_and]
        intro hxid
        exact absurd hxid (by have := hold x hx; omega)
      rw [hnone]
      rw [List.find?_cons_of_pos _ (by simp [new_activity])]
      rfl
    rw [hhead]
    have htail : ((created_ids (start + 1) ds.length).map
        (points_of (old ++ new_activity uid start d
          :: created_records uid (start + 1) ds) uid)).sum
        = (ds.map (fun d => calculate_points d.type d)).sum := by
      rw [show old ++ new_activity uid start d :: created_records uid (start + 1) ds
          = (old ++ [new_activity uid start d]) ++ created_records uid (start + 1) ds by
        simp]
      apply ih (start + 1) (old ++ [new_activity uid start d])
      intro a ha
      rcases List.mem_append.mp ha with h | h
      · have := hold a h; omega
      · simp only [List.mem_singleton] at h
        rw [h]
        simp [new_activity]
    rw [htail]

/-- C2 (amended): for any batch of `create_activity` calls followed by
`delete_activity` calls on exactly the records created (in any order),
`total_points` and `weekly_points` return to their exact pre-sequence
values — deletion subtracts the stored `awarded_points`, never a
recomputation.  The impact aggregates however do NOT return to their
pre-sequence values: `delete_activity` never touches them, so they keep
the full accrued deltas. -/
theorem claim_C2_points_round_trip (st : LedgerState) (ds : List ActivityData) (ids : List ℤ)
    (hids : (st.activities.map (fun a => a.id)).Nodup)
    (hfresh : ∀ a ∈ st.activities, a.id < st.next_id)
    (hperm : ids.Perm (created_ids st.next_id ds.length)) :
    ∃ st', delete_many (create_many st ds) ids = .ok st' ∧
      st'.user.total_points = st.user.total_points ∧
      st'.user.weekly_points = st.user.weekly_points ∧
      st'.user.trash_collected
        = st.user.trash_collected + (ds.map (fun d => trash_delta d.type d)).sum ∧
      st'.user.trees_planted
        = st.user.trees_planted + (ds.map (fun d => trees_delta d.type d)).sum ∧
      st'.user.co2_saved
        = st.user.co2_saved + (ds.map (fun d => co2_delta d.type d)).sum := by
  obtain ⟨ha, hi, hn, ht, hw, htr, hte, hco⟩ := create_many_spec ds st
  have hact1 : ((create_many st ds).activities.map (fun a => a.id)).Nodup := by
    rw [ha, List.map_append, created_records_map_id]
    rw [List.nodup_append]
    refine ⟨hids, created_ids_nodup _ _, ?_⟩
    intro x hx hy
    rw [created_ids_mem] at hy
    obtain ⟨b, hb, rfl⟩ := List.mem_map.mp hx
    have := hfresh b hb
    omega
  have hmemids : ∀ j ∈ ids, ∃ a ∈ (create_many st ds).activities,
      a.id = j ∧ a.user_id = (create_many st ds).user.id := by
    intro j hj
    have hj2 : j ∈ created_ids st.next_id ds.length := hperm.mem_iff.mp hj
    obtain ⟨a, ham, haj, hau⟩ := created_records_mem_of_id st.user.id ds st.next_id j hj2
    refine ⟨a, ?_, haj, by rw [hau, hi]⟩
    rw [ha]
    exact List.mem_append_right _ ham
  have hnodup_ids : ids.Nodup := (hperm.nodup_iff).mpr (created_ids_nodup _ _)
  obtain ⟨st', hdm, hsid, hstot, hsweek, hstr, hste, hsco⟩ :=
    delete_many_spec ids (create_many st ds) hnodup_ids hact1 hmemids
  have hsum : (ids.map
        (points_of (create_many st ds).activities (create_many st ds).user.id)).sum
      = (ds.map (fun d => calculate_points d.type d)).sum := by
    have h1 := (hperm.map
      (points_of (create_many st ds).activities (create_many st ds).user.id)).sum_eq
    rw [h1, hi, ha]
    exact sum_points_of_created st.user.id ds st.next_id st.activities hfresh
  refine ⟨st', hdm, ?_, ?_, ?_, ?_, ?_⟩
  · rw [hstot, hsum, ht]
    ring
  · rw [hsweek, hsum, hw]
    ring
  · rw [hstr, htr]
  · rw [hste, hte]
  · rw [hsco, hco]

/-- Witness for C2 on one trash activity created and deleted. -/
theorem claim_C2_points_round_trip_witness :
    ((clean_state.activities.map (fun a => a.id)).Nodup) ∧
    (∀ a ∈ clean_state.activities, a.id < clean_state.next_id) ∧
    (([1] : List ℤ).Perm (created_ids clean_state.next_id [trash_sample].length)) ∧
    (∃ st', delete_many (create_many clean_state [trash_sample]) [1] = .ok st' ∧
      st'.user.total_points = clean_state.user.total_points ∧
      st'.user.weekly_points = clean_state.user.weekly_points ∧
      st'.user.trash_collected
        = clean_state.user.trash_collected
          + ([trash_sample].map (fun d => trash_delta d.type d)).sum ∧
      st'.user.trees_planted
        = clean_state.user.trees_planted
          + ([trash_sample].map (fun d => trees_delta d.type d)).sum ∧
      st'.user.co2_saved
        = clean_state.user.co2_saved
          + ([trash_sample].map (fun d => co2_delta d.type d)).sum) := by
  have h1 : (clean_state.activities.map (fun a => a.id)).Nodup := by simp [clean_state]
  have h2 : ∀ a ∈ clean_state.activities, a.id < clean_state.next_id := by simp [clean_state]
  have h3 : ([1] : List ℤ).Perm (created_ids clean_state.next_id [trash_sample].length) :=
    List.Perm.refl _
  exact ⟨h1, h2, h3, claim_C2_points_round_trip clean_state [trash_sample] [1] h1 h2 h3⟩

/-- Counterexample to C2 as stated: creating and then deleting a trash
activity (3 bags) returns `total_points` to 0 but leaves
`trash_collected = 6` and `co2_saved = 1.5`, not their pre-sequence
value 0 — the impact aggregates are not reversed. -/
theorem claim_C2_counterexample :
    clean_state.user.trash_collected = 0 ∧ clean_state.user.co2_saved = 0 ∧
    delete_activity (create_activity clean_state trash_sample) 1 = .ok
      { user := { id := 1, total_points := 0, weekly_points := 0,
                  trash_collected := 6, trees_planted := 0, co2_saved := 3/2 },
        activities := [], next_id := 2 } ∧
    ((6:ℚ) ≠ 0) ∧ ((3/2 : ℚ) ≠ 0) := by
  refine ⟨rfl, rfl, ?_, by norm_num, by norm_num⟩
  norm_num [create_activity, new_activity, delete_activity, owned_activity,
    update_user_impact_stats, calculate_points, base_points, truthyStr, truthyList,
    truthyImpact, ImpactData.empty, clean_state, trash_sample, min_def, List.eraseP]

end EcoTrack
